/-
Verification of the client-side search/pagination/playback coordinator of
the grotle-frontend repository (src/components/ui/SearchInterface.tsx).

The component is shallowly embedded as a pure state machine:
  * React `useState` slices become fields of `CompState`;
  * each event handler (`handleSearch`, `handlePageChange`,
    `handleFileSelect`, `removeImage`, `toggleSection`, `handleVideoClick`,
    `handlePlay`, `handlePause`) becomes a pure function on `CompState`,
    with the environment's contribution (HTTP response, file-conversion
    outcomes, media-element status) passed as explicit arguments;
  * a network handler additionally returns the request payload it sent
    (`Option SearchPayload`, `none` when no request was issued);
  * JavaScript objects used as string-keyed maps (`isPlaying`,
    `expandedSections`) become association lists with JS-object update
    semantics (existing key updated in place, new key appended) and
    lookups defaulting to the JS `undefined`-is-falsy reading;
  * JS numbers that only carry page counts are modelled as `Int`
    (no claim depends on floating-point semantics);
  * `searchTerm.trim()` is modelled by `jsTrim`, a structural
    remove-whitespace-at-both-ends function on the character list.
-/
import Mathlib

set_option linter.unusedVariables false

/-- JavaScript `String.prototype.trim()`: drop whitespace from both ends. -/
def jsTrim (s : String) : String :=
  String.mk (((s.data.dropWhile Char.isWhitespace).reverse.dropWhile Char.isWhitespace).reverse)

/-- A typed search query as built by the component and sent on the wire.
Mirrors `interface SearchQuery` (fields `type`, `value`, `embedding_model`);
`type` is the literal string `"text"` or `"base64"`. -/
structure SearchQuery where
  type : String
  value : String
  embedding_model : String
deriving DecidableEq, Repr

/-- Opaque browser `File` handle: the component only reads `name` and
`type` (the declared MIME type). -/
structure JsFile where
  name : String
  type : String
deriving DecidableEq, Repr

/-- One search hit, mirroring `interface VideoSearchResult`. Numeric
fields are modelled as `Int`; no claim computes with them. -/
structure VideoSearchResult where
  id : String
  url : String
  thumbnailUrl : Option String := none
  title : Option String := none
  duration : Option Int := none
  startTime : Option Int := none
  endTime : Option Int := none
  score : Int := 0
  matchType : Option String := none
  description : Option String := none
  transcript : Option String := none
  createdAt : String := ""
deriving DecidableEq, Repr

/-- Pagination block of a successful `/api/search` response body. -/
structure RespPagination where
  currentPage : Int
  totalPages : Int
  totalResults : Int
  hasMore : Bool
deriving DecidableEq, Repr

/-- Successful `/api/search` response body (`interface SearchResponse`). -/
structure SearchResponse where
  results : List VideoSearchResult
  pagination : RespPagination
deriving DecidableEq, Repr

/-- Outcome of one `fetch("/api/search", ...)` round-trip, as seen by the
handler: a 2xx response with a parsed body, or a non-2xx response whose
body text feeds `throw new Error(await response.text())`. -/
inductive FetchResult where
  | ok (data : SearchResponse)
  | httpError (body : String)
deriving DecidableEq, Repr

/-- The JSON payload POSTed to `/api/search`:
`{ queries, page, page_size }`. -/
structure SearchPayload where
  queries : List SearchQuery
  page : Int
  page_size : Int
deriving DecidableEq, Repr

/-- Per-result disclosure flags (`{ description: boolean; transcript: boolean }`). -/
structure Sections where
  description : Bool
  transcript : Bool
deriving DecidableEq, Repr

/-- Which disclosure section a toggle addresses
(`"description" | "transcript"`). -/
inductive SectionKey where
  | description
  | transcript
deriving DecidableEq, Repr

/-- Read one field of a `Sections` record. -/
def Sections.get (s : Sections) : SectionKey → Bool
  | .description => s.description
  | .transcript => s.transcript

/-- Overwrite one field of a `Sections` record (the computed-key update
of the spread expression). -/
def Sections.set (s : Sections) : SectionKey → Bool → Sections
  | .description, b => { s with description := b }
  | .transcript, b => { s with transcript := b }

/-- JS-object-style update of a string-keyed map: an existing key keeps
its position and gets the new value, a new key is appended. Keys stay
unique. -/
def jsSet {α : Type} : List (String × α) → String → α → List (String × α)
  | [], k, v => [(k, v)]
  | (k', v') :: rest, k, v =>
      if k' = k then (k, v) :: rest else (k', v') :: jsSet rest k v

/-- JS-object-style lookup, as `Option` (`none` plays `undefined`). -/
def jsGet {α : Type} (m : List (String × α)) (k : String) : Option α :=
  (m.find? (fun p => p.1 = k)).map (fun p => p.2)

/-- Boolean lookup where `undefined` reads as `false`
(`isPlaying[result.id]` in conditions, the `?? false` in the toggle). -/
def jsGetB (m : List (String × Bool)) (k : String) : Bool :=
  (jsGet m k).getD false

/-- The component's whole `useState` state, one field per state slice,
initialised as in the source. -/
structure CompState where
  searchTerm : String := ""
  hasSearched : Bool := false
  results : List VideoSearchResult := []
  loading : Bool := false
  error : String := ""
  activeVideoId : Option String := none
  isPlaying : List (String × Bool) := []
  expandedSections : List (String × Sections) := []
  selectedFiles : List JsFile := []
  base64Contents : List (JsFile × String) := []
  currentPage : Int := 1
  totalPages : Int := 0
  totalResults : Int := 0
  lastSearchQueries : List SearchQuery := []
deriving DecidableEq, Repr

/-- The initial state of a freshly mounted component. -/
def initState : CompState := {}

/-- Constant `pageSize = 10` of the component. -/
def pageSize : Int := 10

/-- The Query Builder fragment of `handleSearch` (lines 152-168): an
optional text query from the raw (untrimmed) `searchTerm`, guarded by
the truthiness test on `searchTerm.trim()`, followed by one `base64`
query per stored upload, in order. -/
def buildQueries (searchTerm : String) (base64Contents : List (JsFile × String)) :
    List SearchQuery :=
  (if jsTrim searchTerm ≠ "" then
    [{ type := "text", value := searchTerm, embedding_model := "multimodal" }]
  else []) ++
  base64Contents.map (fun c =>
    { type := "base64", value := c.2, embedding_model := "multimodal" })

/-- Handler `handleSearch(page)` (lines 141-225), collapsed to one atomic
step. Returns the new state and the payload sent (`none` when the
validation guard fires and no request is issued). The environment's
response for the issued request is the `resp` argument. -/
def handleSearch (s : CompState) (page : Int) (resp : FetchResult) :
    CompState × Option SearchPayload :=
  if jsTrim s.searchTerm = "" ∧ s.base64Contents.length = 0 then
    ({ s with error := "Please enter a search term or upload files" }, none)
  else
    let queries := buildQueries s.searchTerm s.base64Contents
    let payload : SearchPayload := { queries := queries, page := page, page_size := pageSize }
    let s1 := { s with loading := true, error := "", hasSearched := true,
                       lastSearchQueries := queries }
    match resp with
    | .httpError _body =>
        ({ s1 with error := "An unexpected error occurred while searching",
                   results := [], currentPage := 1, totalPages := 0, totalResults := 0,
                   loading := false }, some payload)
    | .ok data =>
        ({ s1 with activeVideoId := none, isPlaying := [],
                   results := data.results,
                   currentPage := data.pagination.currentPage,
                   totalPages := data.pagination.totalPages,
                   totalResults := data.pagination.totalResults,
                   error := if data.results.length = 0 then
                     "No results found. Try adjusting your search." else "",
                   loading := false }, some payload)

/-- Handler `handlePageChange(newPage)` (lines 227-273), collapsed to one
atomic step, same conventions as `handleSearch`. -/
def handlePageChange (s : CompState) (newPage : Int) (resp : FetchResult) :
    CompState × Option SearchPayload :=
  if newPage < 1 ∨ newPage > s.totalPages ∨ s.loading then (s, none)
  else
    let payload : SearchPayload :=
      { queries := s.lastSearchQueries, page := newPage, page_size := pageSize }
    let s1 := { s with loading := true }
    match resp with
    | .httpError _body =>
        ({ s1 with error := "An error occurred while fetching more results",
                   loading := false }, some payload)
    | .ok data =>
        ({ s1 with activeVideoId := none, isPlaying := [],
                   results := data.results,
                   currentPage := data.pagination.currentPage,
                   totalPages := data.pagination.totalPages,
                   totalResults := data.pagination.totalResults,
                   loading := false }, some payload)

/-- Constant `validImageTypes` of `handleFileSelect`. -/
def validImageTypes : List String := ["image/jpeg", "image/png", "image/jpg"]

/-- Batch conversion of the selected files: every file of the batch
converts, or the whole batch fails (the awaited `Promise.all`). `conv`
is the environment's per-file `fileToBase64` outcome. -/
def convertAll : List JsFile → (JsFile → Option String) → Option (List (JsFile × String))
  | [], _ => some []
  | f :: rest, conv =>
      match conv f, convertAll rest conv with
      | some b, some r => some ((f, b) :: r)
      | _, _ => none

/-- Handler `handleFileSelect` (lines 106-133), collapsed to one atomic
step over the selected batch `files`. -/
def handleFileSelect (s : CompState) (files : List JsFile)
    (conv : JsFile → Option String) : CompState :=
  if files.length = 0 then s
  else
    let validFiles := files.filter (fun f => validImageTypes.contains f.type)
    let s1 := if validFiles.length ≠ files.length then
        { s with error := "Some files were skipped. Please upload only JPG or PNG files" }
      else s
    match convertAll validFiles conv with
    | some newBase64Contents =>
        { s1 with selectedFiles := s1.selectedFiles ++ validFiles,
                  base64Contents := s1.base64Contents ++ newBase64Contents }
    | none => { s1 with error := "Failed to process one or more files" }

/-- Index-dropping filter of `removeImage`: keep every entry whose
position differs from the removed index. -/
def removeIdx {α : Type} (l : List α) (idx : Nat) : List α :=
  (l.enum.filter (fun p => p.1 ≠ idx)).map (fun p => p.2)

/-- Handler `removeImage(index)` (lines 135-138). -/
def removeImage (s : CompState) (index : Nat) : CompState :=
  { s with selectedFiles := removeIdx s.selectedFiles index,
           base64Contents := removeIdx s.base64Contents index }

/-- Handler of the "Remove All" button (lines 406-410). -/
def clearAllImages (s : CompState) : CompState :=
  { s with selectedFiles := [], base64Contents := [] }

/-- Handler `toggleSection(resultId, section)` (lines 70-81): rebuild the
entry from the previous one (or the all-false default) with the addressed
section flipped from its `?? false` reading. -/
def toggleSection (s : CompState) (resultId : String) (sec : SectionKey) : CompState :=
  let prevEntry := (jsGet s.expandedSections resultId).getD
    { description := false, transcript := false }
  let flipped := !(((jsGet s.expandedSections resultId).map (fun e => e.get sec)).getD false)
  { s with expandedSections :=
      jsSet s.expandedSections resultId (prevEntry.set sec flipped) }

/-- Handler `handleVideoClick(resultId, result)` (lines 276-313). The
media element's own status (`video.paused`) and whether `video.play()`
resolves are environment inputs; `videoRefs` is modelled as total over
rendered results (the ref callback registers every rendered video).
Seeking `video.currentTime` touches no React state and is not modelled. -/
def handleVideoClick (s : CompState) (resultId : String)
    (paused : Bool) (playOk : Bool) : CompState :=
  if s.activeVideoId = some resultId then
    if paused then
      if playOk then { s with isPlaying := jsSet s.isPlaying resultId true }
      else { s with isPlaying := jsSet s.isPlaying resultId false }
    else { s with isPlaying := jsSet s.isPlaying resultId false }
  else
    let s1 := match s.activeVideoId with
      | some old => { s with isPlaying := jsSet s.isPlaying old false }
      | none => s
    if playOk then
      { s1 with activeVideoId := some resultId,
                isPlaying := jsSet s1.isPlaying resultId true }
    else { s1 with isPlaying := jsSet s1.isPlaying resultId false }

/-- Handler `handlePlay(resultId)` (lines 316-318): the media element's
`onPlay` event marks that id playing, leaving the active id untouched. -/
def handlePlay (s : CompState) (resultId : String) : CompState :=
  { s with isPlaying := jsSet s.isPlaying resultId true }

/-- Handler `handlePause(resultId)` (lines 320-322). -/
def handlePause (s : CompState) (resultId : String) : CompState :=
  { s with isPlaying := jsSet s.isPlaying resultId false }

/-- The expanded flag the UI reads for one (result id, section) pair,
`undefined` rendering as collapsed. -/
def getFlag (s : CompState) (resultId : String) (sec : SectionKey) : Bool :=
  ((jsGet s.expandedSections resultId).getD
    { description := false, transcript := false }).get sec

/-- A user edit of the input fields between network actions: the text box
and the upload lists change, everything else stays. -/
def editInputs (s : CompState) (t : String) (fs : List JsFile)
    (bs : List (JsFile × String)) : CompState :=
  { s with searchTerm := t, selectedFiles := fs, base64Contents := bs }

/-- One user-level operation on the upload lists. -/
inductive FileOp where
  | select (files : List JsFile) (conv : JsFile → Option String)
  | remove (idx : Nat)
  | clearAll

/-- Apply one upload-list operation through the component's handlers. -/
def applyFileOp (s : CompState) : FileOp → CompState
  | .select files conv => handleFileSelect s files conv
  | .remove idx => removeImage s idx
  | .clearAll => clearAllImages s

/-- Alignment invariant of the two upload lists: same length, and the
file stored at index i of `base64Contents` is the file at index i of
`selectedFiles`. -/
def imagesAligned (s : CompState) : Prop :=
  s.base64Contents.map (fun c => c.1) = s.selectedFiles

/-- The claim's playback invariant: when an active result id is set,
every other result id's playing flag is false. -/
def onlyActivePlaying (s : CompState) : Prop :=
  ∀ a, s.activeVideoId = some a → ∀ id, id ≠ a → jsGetB s.isPlaying id = false

/-- Strengthened playback invariant used for the induction: any id marked
playing is the active id. -/
def pairInv (act : Option String) (m : List (String × Bool)) : Prop :=
  ∀ id, jsGetB m id = true → act = some id

/-- The strengthened invariant read off a component state. -/
def playingIsActive (s : CompState) : Prop :=
  pairInv s.activeVideoId s.isPlaying

/-- States reachable by any interleaving of playback clicks, external
media play/pause events on arbitrary result ids, and successful search or
page-change completions — the transition alphabet named by the claim. -/
inductive ReachableUi : CompState → Prop
  | init : ReachableUi initState
  | click (s : CompState) (resultId : String) (paused playOk : Bool) :
      ReachableUi s → ReachableUi (handleVideoClick s resultId paused playOk)
  | extPlay (s : CompState) (resultId : String) :
      ReachableUi s → ReachableUi (handlePlay s resultId)
  | extPause (s : CompState) (resultId : String) :
      ReachableUi s → ReachableUi (handlePause s resultId)
  | searchOk (s : CompState) (page : Int) (data : SearchResponse) :
      ReachableUi s → ReachableUi (handleSearch s page (FetchResult.ok data)).1
  | pageOk (s : CompState) (n : Int) (data : SearchResponse) :
      ReachableUi s → ReachableUi (handlePageChange s n (FetchResult.ok data)).1

/-- Same alphabet, except an external play event may target only the
currently active result id (the restriction the counterexample forces). -/
inductive ReachableUiSafe : CompState → Prop
  | init : ReachableUiSafe initState
  | click (s : CompState) (resultId : String) (paused playOk : Bool) :
      ReachableUiSafe s → ReachableUiSafe (handleVideoClick s resultId paused playOk)
  | extPlayActive (s : CompState) (resultId : String) :
      ReachableUiSafe s → s.activeVideoId = some resultId →
      ReachableUiSafe (handlePlay s resultId)
  | extPause (s : CompState) (resultId : String) :
      ReachableUiSafe s → ReachableUiSafe (handlePause s resultId)
  | searchOk (s : CompState) (page : Int) (data : SearchResponse) :
      ReachableUiSafe s → ReachableUiSafe (handleSearch s page (FetchResult.ok data)).1
  | pageOk (s : CompState) (n : Int) (data : SearchResponse) :
      ReachableUiSafe s → ReachableUiSafe (handlePageChange s n (FetchResult.ok data)).1

/-- Sample state: text entered, nothing else. -/
def stateHi : CompState := { initState with searchTerm := "hi" }

/-- Sample state: text entered, result "A" active and playing. -/
def stateHiPlaying : CompState :=
  { initState with searchTerm := "hi", activeVideoId := some "A", isPlaying := [("A", true)] }

/-- Sample state: a previous error is on display and three pages exist. -/
def statePrevError : CompState :=
  { initState with error := "previous failure", totalPages := 3 }

/-- Sample response: an empty result page. -/
def emptyPage : SearchResponse :=
  { results := [], pagination :=
    { currentPage := 1, totalPages := 0, totalResults := 0, hasMore := false } }

/-- Sample response: page 1 of 3. -/
def page1of3 : SearchResponse :=
  { results := [], pagination :=
    { currentPage := 1, totalPages := 3, totalResults := 25, hasMore := true } }

/-- Sample response: page 2 of 3. -/
def page2of3 : SearchResponse :=
  { results := [], pagination :=
    { currentPage := 2, totalPages := 3, totalResults := 25, hasMore := true } }

/-- Sample accepted upload. -/
def pngFile : JsFile := { name := "i.png", type := "image/png" }

/-- Sample rejected upload (wrong MIME type). -/
def txtFile : JsFile := { name := "n.txt", type := "text/plain" }

/-- The query list built from the sample text input "hi". -/
def hiQueries : List SearchQuery :=
  [{ type := "text", value := "hi", embedding_model := "multimodal" }]

/-! ### Association-list lemmas for the JS-object maps -/

theorem jsGet_jsSet_self {α : Type} (m : List (String × α)) (k : String) (v : α) :
    jsGet (jsSet m k v) k = some v := by
  induction m with
  | nil => simp [jsSet, jsGet]
  | cons p rest ih =>
      obtain ⟨k', v'⟩ := p
      by_cases h : k' = k
      · simp [jsSet, jsGet, h]
      · simp only [jsSet, if_neg h]
        simpa [jsGet, List.find?, h] using ih

theorem jsGet_jsSet_ne {α : Type} (m : List (String × α)) (k j : String) (v : α)
    (hjk : j ≠ k) : jsGet (jsSet m k v) j = jsGet m j := by
  induction m with
  | nil => simp [jsSet, jsGet, List.find?, Ne.symm hjk]
  | cons p rest ih =>
      obtain ⟨k', v'⟩ := p
      by_cases h : k' = k
      · subst h
        simp [jsSet, jsGet, List.find?, Ne.symm hjk]
      · simp only [jsSet, if_neg h]
        by_cases h2 : k' = j
        · simp [jsGet, List.find?, h2]
        · simpa [jsGet, List.find?, h2] using ih

theorem jsGetB_jsSet_self (m : List (String × Bool)) (k : String) (v : Bool) :
    jsGetB (jsSet m k v) k = v := by
  simp [jsGetB, jsGet_jsSet_self]

theorem jsGetB_jsSet_ne (m : List (String × Bool)) (k j : String) (v : Bool)
    (hjk : j ≠ k) : jsGetB (jsSet m k v) j = jsGetB m j := by
  simp [jsGetB, jsGet_jsSet_ne m k j v hjk]

theorem Sections.get_set_self (e : Sections) (sec : SectionKey) (b : Bool) :
    (e.set sec b).get sec = b := by
  cases sec <;> rfl

/-! ### Disclosure state (claim C9) -/

theorem getFlag_toggleSection_self (s : CompState) (resultId : String) (sec : SectionKey) :
    getFlag (toggleSection s resultId sec) resultId sec = !(getFlag s resultId sec) := by
  unfold getFlag toggleSection
  rw [jsGet_jsSet_self]
  rw [Option.getD_some, Sections.get_set_self]
  cases h : jsGet s.expandedSections resultId <;> simp [h, Sections.get]
  cases sec <;> rfl

/-- C9: toggling one (id, section) disclosure flag twice in succession
restores its original value, and a single toggle of an id with no stored
entry yields `true` (unset entries read as `false` before the flip). -/
theorem c9_toggle_involution_and_default :
    (∀ (s : CompState) (resultId : String) (sec : SectionKey),
       getFlag (toggleSection (toggleSection s resultId sec) resultId sec) resultId sec =
         getFlag s resultId sec) ∧
    (∀ (s : CompState) (resultId : String) (sec : SectionKey),
       jsGet s.expandedSections resultId = none →
       getFlag (toggleSection s resultId sec) resultId sec = true) := by
  constructor
  · intro s resultId sec
    rw [getFlag_toggleSection_self, getFlag_toggleSection_self, Bool.not_not]
  · intro s resultId sec h
    rw [getFlag_toggleSection_self]
    unfold getFlag
    rw [h]
    cases sec <;> rfl

/-- Concrete instance of C9's second conjunct: the very first toggle of an
absent entry expands it. -/
theorem c9_toggle_witness :
    jsGet initState.expandedSections "r1" = none ∧
    getFlag (toggleSection initState "r1" SectionKey.description) "r1"
      SectionKey.description = true :=
  ⟨by decide,
   c9_toggle_involution_and_default.2 initState "r1" SectionKey.description (by decide)⟩

/-! ### Pagination guard (claim C5) -/

/-- C5: `handlePageChange(n)` is a no-op — the state is returned unchanged
and no request payload is produced — whenever `n < 1`, `n > totalPages`,
or `loading` is set when the handler runs. -/
theorem c5_page_change_guard_noop (s : CompState) (n : Int) (resp : FetchResult)
    (h : n < 1 ∨ n > s.totalPages ∨ s.loading = true) :
    handlePageChange s n resp = (s, none) := by
  unfold handlePageChange
  rw [if_pos h]

/-- Concrete instance of C5: page 0 is rejected without touching state. -/
theorem c5_page_change_guard_noop_witness :
    ((0 : Int) < 1 ∨ (0 : Int) > initState.totalPages ∨ initState.loading = true) ∧
    handlePageChange initState 0 (FetchResult.httpError "down") = (initState, none) :=
  ⟨by decide,
   c5_page_change_guard_noop initState 0 (FetchResult.httpError "down") (by decide)⟩

/-! ### Empty-input validation (claim C6) -/

/-- C6: with empty trimmed text and no uploaded images, `handleSearch`
issues no request and only sets the validation error, leaving every other
state slice untouched. -/
theorem c6_empty_input_validation (s : CompState) (page : Int) (resp : FetchResult)
    (h : jsTrim s.searchTerm = "" ∧ s.base64Contents.length = 0) :
    handleSearch s page resp =
      ({ s with error := "Please enter a search term or upload files" }, none) := by
  unfold handleSearch
  rw [if_pos h]

/-- Concrete instance of C6: a whitespace-only search term with no uploads
is rejected locally. -/
theorem c6_empty_input_validation_witness :
    (jsTrim { initState with searchTerm := "   " }.searchTerm = "" ∧
      { initState with searchTerm := "   " }.base64Contents.length = 0) ∧
    handleSearch { initState with searchTerm := "   " } 1 (FetchResult.httpError "x") =
      ({ { initState with searchTerm := "   " } with
          error := "Please enter a search term or upload files" }, none) :=
  ⟨by decide,
   c6_empty_input_validation { initState with searchTerm := "   " } 1
     (FetchResult.httpError "x") (by decide)⟩

/-! ### Search and pagination handler lemmas -/

theorem handleSearch_validated_no_request (s : CompState) (page : Int) (r : FetchResult)
    (h : jsTrim s.searchTerm = "" ∧ s.base64Contents.length = 0) :
    (handleSearch s page r).2 = none := by
  unfold handleSearch
  rw [if_pos h]

theorem handleSearch_payload_queries (s : CompState) (page : Int) (r : FetchResult)
    (p : SearchPayload) (h : (handleSearch s page r).2 = some p) :
    p.queries = (handleSearch s page r).1.lastSearchQueries := by
  unfold handleSearch at h ⊢
  by_cases hg : jsTrim s.searchTerm = "" ∧ s.base64Contents.length = 0
  · rw [if_pos hg] at h
    simp at h
  · rw [if_neg hg] at h ⊢
    cases r with
    | ok data =>
        simp only [Option.some.injEq] at h
        subst h
        rfl
    | httpError body =>
        simp only [Option.some.injEq] at h
        subst h
        rfl

theorem handlePageChange_payload_queries (s : CompState) (n : Int) (r : FetchResult)
    (p : SearchPayload) (h : (handlePageChange s n r).2 = some p) :
    p.queries = s.lastSearchQueries := by
  unfold handlePageChange at h
  by_cases hg : n < 1 ∨ n > s.totalPages ∨ s.loading = true
  · rw [if_pos hg] at h
    simp at h
  · rw [if_neg hg] at h
    cases r with
    | ok data =>
        simp only [Option.some.injEq] at h
        subst h
        rfl
    | httpError body =>
        simp only [Option.some.injEq] at h
        subst h
        rfl

theorem handlePageChange_lastQueries (s : CompState) (n : Int) (r : FetchResult) :
    (handlePageChange s n r).1.lastSearchQueries = s.lastSearchQueries := by
  unfold handlePageChange
  by_cases hg : n < 1 ∨ n > s.totalPages ∨ s.loading = true
  · rw [if_pos hg]
  · rw [if_neg hg]
    cases r <;> rfl

/-! ### Non-2xx search responses (claim C1) -/

/-- C1 is refuted as stated: on a non-2xx response the displayed error is
the fixed string of the catch handler, not the response body text. The
body arrives as "boom" but the state stores the generic message. -/
theorem c1_claim_counterexample :
    ((handleSearch stateHi 1 (FetchResult.httpError "boom")).2).isSome = true ∧
    (handleSearch stateHi 1 (FetchResult.httpError "boom")).1.error ≠ "boom" := by
  constructor <;> decide

/-- C1 (amended): for every search invocation that issues a request and
receives a non-2xx response, the error state becomes the fixed message
"An unexpected error occurred while searching" (the body text is only
thrown and logged), the result list is cleared, and pagination is reset
to currentPage 1, totalPages 0, totalResults 0. -/
theorem c1_non2xx_fixed_error_and_reset (s : CompState) (page : Int) (body : String)
    (h : ¬(jsTrim s.searchTerm = "" ∧ s.base64Contents.length = 0)) :
    ((handleSearch s page (FetchResult.httpError body)).2).isSome = true ∧
    (handleSearch s page (FetchResult.httpError body)).1.error =
      "An unexpected error occurred while searching" ∧
    (handleSearch s page (FetchResult.httpError body)).1.results = [] ∧
    (handleSearch s page (FetchResult.httpError body)).1.currentPage = 1 ∧
    (handleSearch s page (FetchResult.httpError body)).1.totalPages = 0 ∧
    (handleSearch s page (FetchResult.httpError body)).1.totalResults = 0 := by
  unfold handleSearch
  rw [if_neg h]
  exact ⟨rfl, rfl, rfl, rfl, rfl, rfl⟩

/-- Concrete instance of the amended C1. -/
theorem c1_non2xx_witness :
    (¬(jsTrim stateHi.searchTerm = "" ∧ stateHi.base64Contents.length = 0)) ∧
    (handleSearch stateHi 2 (FetchResult.httpError "oops")).1.results = [] :=
  ⟨by decide,
   (c1_non2xx_fixed_error_and_reset stateHi 2 "oops" (by decide)).2.2.1⟩

/-! ### Query Builder output (claim C2) -/

/-- C2 is refuted as stated: the emitted text query carries the raw
`searchTerm`, not the trimmed text. At input " a " with no uploads the
builder does not emit the query valued at the trimmed text. -/
theorem c2_claim_counterexample :
    jsTrim " a " ≠ "" ∧
    buildQueries " a " [] ≠
      [{ type := "text", value := jsTrim " a ", embedding_model := "multimodal" }] := by
  constructor <;> decide

/-- C2 (amended): when the trimmed text is non-empty, the builder emits
first a text query whose value is the raw (untrimmed) input text, then
one `base64` query per uploaded image in upload order. -/
theorem c2_text_query_untrimmed (t : String) (imgs : List (JsFile × String))
    (h : jsTrim t ≠ "") :
    buildQueries t imgs =
      { type := "text", value := t, embedding_model := "multimodal" } ::
        imgs.map (fun c =>
          { type := "base64", value := c.2, embedding_model := "multimodal" }) := by
  unfold buildQueries
  rw [if_pos h]
  rfl

/-- Concrete instance of the amended C2. -/
theorem c2_text_query_untrimmed_witness :
    jsTrim " a " ≠ "" ∧
    buildQueries " a " [(pngFile, "QUJD")] =
      { type := "text", value := " a ", embedding_model := "multimodal" } ::
        [(pngFile, "QUJD")].map (fun c =>
          { type := "base64", value := c.2, embedding_model := "multimodal" }) :=
  ⟨by decide,
   c2_text_query_untrimmed " a " [(pngFile, "QUJD")] (by decide)⟩

/-! ### Playback reset on success (claim C3) -/

/-- C3: after every successful search or page change that actually issued
a request and stored the 2xx body, the active video id is `null` and no
result id is marked playing. -/
theorem c3_success_resets_playback :
    (∀ (s : CompState) (page : Int) (data : SearchResponse),
       ((handleSearch s page (FetchResult.ok data)).2).isSome = true →
       (handleSearch s page (FetchResult.ok data)).1.activeVideoId = none ∧
       ∀ id, jsGetB (handleSearch s page (FetchResult.ok data)).1.isPlaying id = false) ∧
    (∀ (s : CompState) (n : Int) (data : SearchResponse),
       ((handlePageChange s n (FetchResult.ok data)).2).isSome = true →
       (handlePageChange s n (FetchResult.ok data)).1.activeVideoId = none ∧
       ∀ id, jsGetB (handlePageChange s n (FetchResult.ok data)).1.isPlaying id = false) := by
  constructor
  · intro s page data h
    unfold handleSearch at h ⊢
    by_cases hg : jsTrim s.searchTerm = "" ∧ s.base64Contents.length = 0
    · rw [if_pos hg] at h
      simp at h
    · rw [if_neg hg]
      exact ⟨rfl, fun id => rfl⟩
  · intro s n data h
    unfold handlePageChange at h ⊢
    by_cases hg : n < 1 ∨ n > s.totalPages ∨ s.loading = true
    · rw [if_pos hg] at h
      simp at h
    · rw [if_neg hg]
      exact ⟨rfl, fun id => rfl⟩

/-- Concrete instance of C3: a successful search from a state with an
active, playing video leaves no active id. -/
theorem c3_success_resets_playback_witness :
    ((handleSearch stateHiPlaying 1 (FetchResult.ok emptyPage)).2).isSome = true ∧
    (handleSearch stateHiPlaying 1 (FetchResult.ok emptyPage)).1.activeVideoId = none :=
  ⟨by decide,
   (c3_success_resets_playback.1 stateHiPlaying 1 emptyPage (by decide)).1⟩

/-! ### Pagination replays captured queries (claim C4) -/

/-- C4: in a sequence search(page 1), goToPage 2, goToPage 1 — even with
arbitrary edits of the input fields between the calls — the query lists
of all three transmitted payloads are identical: pagination replays the
captured `lastSearchQueries`, not the live input. -/
theorem c4_pagination_reuses_captured_queries
    (s0 : CompState) (r1 r2 r3 : FetchResult)
    (t1 t2 : String) (f1 f2 : List JsFile) (b1 b2 : List (JsFile × String))
    (p1 p2 p3 : SearchPayload)
    (h1 : (handleSearch s0 1 r1).2 = some p1)
    (h2 : (handlePageChange (editInputs (handleSearch s0 1 r1).1 t1 f1 b1) 2 r2).2
            = some p2)
    (h3 : (handlePageChange
            (editInputs
              (handlePageChange (editInputs (handleSearch s0 1 r1).1 t1 f1 b1) 2 r2).1
              t2 f2 b2) 1 r3).2 = some p3) :
    p1.queries = p2.queries ∧ p1.queries = p3.queries := by
  have q1 : p1.queries = (handleSearch s0 1 r1).1.lastSearchQueries :=
    handleSearch_payload_queries s0 1 r1 p1 h1
  have q2 : p2.queries = (editInputs (handleSearch s0 1 r1).1 t1 f1 b1).lastSearchQueries :=
    handlePageChange_payload_queries (editInputs (handleSearch s0 1 r1).1 t1 f1 b1) 2 r2 p2 h2
  have q2' : p2.queries = (handleSearch s0 1 r1).1.lastSearchQueries := q2
  have q3 : p3.queries =
      (editInputs
        (handlePageChange (editInputs (handleSearch s0 1 r1).1 t1 f1 b1) 2 r2).1
        t2 f2 b2).lastSearchQueries :=
    handlePageChange_payload_queries
      (editInputs
        (handlePageChange (editInputs (handleSearch s0 1 r1).1 t1 f1 b1) 2 r2).1
        t2 f2 b2) 1 r3 p3 h3
  have q3' : p3.queries =
      (handlePageChange (editInputs (handleSearch s0 1 r1).1 t1 f1 b1) 2 r2).1.lastSearchQueries :=
    q3
  have q4 : (handlePageChange (editInputs (handleSearch s0 1 r1).1 t1 f1 b1) 2 r2).1.lastSearchQueries
      = (editInputs (handleSearch s0 1 r1).1 t1 f1 b1).lastSearchQueries :=
    handlePageChange_lastQueries (editInputs (handleSearch s0 1 r1).1 t1 f1 b1) 2 r2
  have q5 : p3.queries = (handleSearch s0 1 r1).1.lastSearchQueries := q3'.trans q4
  exact ⟨q1.trans q2'.symm, q1.trans q5.symm⟩

/-- Concrete instance of C4: three requests issued, identical queries. -/
theorem c4_pagination_reuses_captured_queries_witness :
    (handleSearch stateHi 1 (FetchResult.ok page1of3)).2 =
      some { queries := hiQueries, page := 1, page_size := 10 } ∧
    ({ queries := hiQueries, page := 1, page_size := 10 } : SearchPayload).queries =
      ({ queries := hiQueries, page := 2, page_size := 10 } : SearchPayload).queries := by
  constructor
  · decide
  · exact (c4_pagination_reuses_captured_queries stateHi
      (FetchResult.ok page1of3) (FetchResult.ok page2of3) (FetchResult.ok page1of3)
      "edited" "also edited" [] [] [] []
      { queries := hiQueries, page := 1, page_size := 10 }
      { queries := hiQueries, page := 2, page_size := 10 }
      { queries := hiQueries, page := 1, page_size := 10 }
      (by decide) (by decide) (by decide)).1

/-! ### Error clearing across user actions (claim C7) -/

/-- C7 is refuted as stated: a successful page change issues a request but
leaves the previous error on display — the handler never clears the error
state at its start. -/
theorem c7_claim_counterexample :
    ((handlePageChange statePrevError 2 (FetchResult.ok page2of3)).2).isSome = true ∧
    (handlePageChange statePrevError 2 (FetchResult.ok page2of3)).1.error
      = "previous failure" ∧
    "previous failure" ≠ "" := by
  refine ⟨?_, ?_, ?_⟩ <;> decide

/-- C7 (amended): only a new search clears the previous error at its start
(its resulting error state depends only on the live inputs and the
response, never on the prior error); a successful page change leaves the
previous error untouched, and so does a file upload whose batch is fully
accepted and fully converted. -/
theorem c7_error_clearing_amended :
    (∀ (s t : CompState) (page : Int) (r : FetchResult),
        s.searchTerm = t.searchTerm → s.base64Contents = t.base64Contents →
        (handleSearch s page r).1.error = (handleSearch t page r).1.error) ∧
    (∀ (s : CompState) (n : Int) (data : SearchResponse),
        (handlePageChange s n (FetchResult.ok data)).1.error = s.error) ∧
    (∀ (s : CompState) (files : List JsFile) (conv : JsFile → Option String),
        (files.filter (fun f => validImageTypes.contains f.type)).length = files.length →
        (convertAll (files.filter (fun f => validImageTypes.contains f.type)) conv).isSome
          = true →
        (handleFileSelect s files conv).error = s.error) := by
  refine ⟨?_, ?_, ?_⟩
  · intro s t page r h1 h2
    unfold handleSearch
    rw [h1, h2]
    by_cases hg : jsTrim t.searchTerm = "" ∧ t.base64Contents.length = 0
    · rw [if_pos hg, if_pos hg]
    · rw [if_neg hg, if_neg hg]
      cases r <;> rfl
  · intro s n data
    unfold handlePageChange
    by_cases hg : n < 1 ∨ n > s.totalPages ∨ s.loading = true
    · rw [if_pos hg]
    · rw [if_neg hg]
  · intro s files conv hlen hconv
    obtain ⟨l, hl⟩ := Option.isSome_iff_exists.mp hconv
    simp only [handleFileSelect]
    by_cases h0 : files.length = 0
    · rw [if_pos h0]
    · rw [if_neg h0, if_neg (not_not_intro hlen), hl]

/-- Concrete instance of the amended C7: a prior error does not leak into
a fresh search's outcome, survives a successful page change, and survives
a clean upload. -/
theorem c7_error_clearing_amended_witness :
    (handleSearch { stateHi with error := "prev" } 1 (FetchResult.ok emptyPage)).1.error =
      (handleSearch stateHi 1 (FetchResult.ok emptyPage)).1.error ∧
    (handlePageChange statePrevError 2 (FetchResult.ok page2of3)).1.error
      = statePrevError.error ∧
    (handleFileSelect { initState with error := "prev" } [pngFile]
      (fun _ => some "QUJD")).error = { initState with error := "prev" }.error :=
  ⟨c7_error_clearing_amended.1 { stateHi with error := "prev" } stateHi 1
      (FetchResult.ok emptyPage) rfl rfl,
   c7_error_clearing_amended.2.1 statePrevError 2 page2of3,
   c7_error_clearing_amended.2.2 { initState with error := "prev" } [pngFile]
      (fun _ => some "QUJD") (by decide) (by decide)⟩

/-! ### Playback invariant (claim C8) -/

theorem pairInv_setTrue (act : Option String) (m : List (String × Bool)) (id : String)
    (h : pairInv act m) (hact : act = some id) : pairInv act (jsSet m id true) := by
  intro j hj
  by_cases hji : j = id
  · subst hji
    exact hact
  · rw [jsGetB_jsSet_ne m id j true hji] at hj
    exact h j hj

theorem pairInv_setFalse (act : Option String) (m : List (String × Bool)) (id : String)
    (h : pairInv act m) : pairInv act (jsSet m id false) := by
  intro j hj
  by_cases hji : j = id
  · subst hji
    rw [jsGetB_jsSet_self] at hj
    cases hj
  · rw [jsGetB_jsSet_ne m id j false hji] at hj
    exact h j hj

theorem pairInv_all_false (act : Option String) (m : List (String × Bool))
    (h : ∀ j, jsGetB m j = false) : pairInv act m := by
  intro j hj
  rw [h j] at hj
  cases hj

theorem pairInv_none_all_false (m : List (String × Bool)) (h : pairInv none m) :
    ∀ j, jsGetB m j = false := by
  intro j
  cases hj : jsGetB m j
  · rfl
  · exact absurd (h j hj) (by simp)

theorem all_false_setFalse (m : List (String × Bool)) (id : String)
    (h : ∀ j, jsGetB m j = false) : ∀ j, jsGetB (jsSet m id false) j = false := by
  intro j
  by_cases hj : j = id
  · subst hj
    exact jsGetB_jsSet_self m j false
  · rw [jsGetB_jsSet_ne m id j false hj]
    exact h j

theorem pairInv_pause_active_all_false (old : String) (m : List (String × Bool))
    (h : pairInv (some old) m) : ∀ j, jsGetB (jsSet m old false) j = false := by
  intro j
  by_cases hj : j = old
  · subst hj
    exact jsGetB_jsSet_self m j false
  · rw [jsGetB_jsSet_ne m old j false hj]
    cases hv : jsGetB m j
    · rfl
    · exact absurd (Option.some.inj (h j hv)).symm hj

theorem pairInv_fresh (m : List (String × Bool)) (id : String)
    (h : ∀ j, jsGetB m j = false) : pairInv (some id) (jsSet m id true) := by
  intro j hj
  by_cases hji : j = id
  · subst hji
    rfl
  · rw [jsGetB_jsSet_ne m id j true hji, h j] at hj
    cases hj

theorem playingIsActive_click (s : CompState) (resultId : String) (paused playOk : Bool)
    (h : playingIsActive s) :
    playingIsActive (handleVideoClick s resultId paused playOk) := by
  unfold handleVideoClick
  by_cases hact : s.activeVideoId = some resultId
  · rw [if_pos hact]
    cases paused
    · show pairInv s.activeVideoId (jsSet s.isPlaying resultId false)
      exact pairInv_setFalse s.activeVideoId s.isPlaying resultId h
    · cases playOk
      · show pairInv s.activeVideoId (jsSet s.isPlaying resultId false)
        exact pairInv_setFalse s.activeVideoId s.isPlaying resultId h
      · show pairInv s.activeVideoId (jsSet s.isPlaying resultId true)
        exact pairInv_setTrue s.activeVideoId s.isPlaying resultId h hact
  · rw [if_neg hact]
    cases hA : s.activeVideoId with
    | some old =>
        have hall : ∀ j, jsGetB (jsSet s.isPlaying old false) j = false :=
          pairInv_pause_active_all_false old s.isPlaying (hA ▸ h)
        cases playOk
        · show pairInv (some old) (jsSet (jsSet s.isPlaying old false) resultId false)
          exact pairInv_all_false (some old) _ (all_false_setFalse _ resultId hall)
        · show pairInv (some resultId) (jsSet (jsSet s.isPlaying old false) resultId true)
          exact pairInv_fresh (jsSet s.isPlaying old false) resultId hall
    | none =>
        have hall : ∀ j, jsGetB s.isPlaying j = false :=
          pairInv_none_all_false s.isPlaying (hA ▸ h)
        cases playOk
        · show pairInv s.activeVideoId (jsSet s.isPlaying resultId false)
          exact pairInv_all_false s.activeVideoId _ (all_false_setFalse _ resultId hall)
        · show pairInv (some resultId) (jsSet s.isPlaying resultId true)
          exact pairInv_fresh s.isPlaying resultId hall

theorem playingIsActive_searchOk (s : CompState) (page : Int) (data : SearchResponse)
    (h : playingIsActive s) :
    playingIsActive (handleSearch s page (FetchResult.ok data)).1 := by
  unfold handleSearch
  by_cases hg : jsTrim s.searchTerm = "" ∧ s.base64Contents.length = 0
  · rw [if_pos hg]
    exact h
  · rw [if_neg hg]
    intro j hj
    cases hj

theorem playingIsActive_pageOk (s : CompState) (n : Int) (data : SearchResponse)
    (h : playingIsActive s) :
    playingIsActive (handlePageChange s n (FetchResult.ok data)).1 := by
  unfold handlePageChange
  by_cases hg : n < 1 ∨ n > s.totalPages ∨ s.loading = true
  · rw [if_pos hg]
    exact h
  · rw [if_neg hg]
    intro j hj
    cases hj

theorem reachableSafe_playingIsActive (s : CompState) (h : ReachableUiSafe s) :
    playingIsActive s := by
  induction h with
  | init => intro j hj; cases hj
  | click s resultId paused playOk hr ih =>
      exact playingIsActive_click s resultId paused playOk ih
  | extPlayActive s resultId hr hact ih =>
      exact pairInv_setTrue s.activeVideoId s.isPlaying resultId ih hact
  | extPause s resultId hr ih =>
      exact pairInv_setFalse s.activeVideoId s.isPlaying resultId ih
  | searchOk s page data hr ih =>
      exact playingIsActive_searchOk s page data ih
  | pageOk s n data hr ih =>
      exact playingIsActive_pageOk s n data ih

/-- C8 is refuted as stated: from the initial state, click result "A"
(play succeeds), then let an external play event fire for result "B" —
a reachable state where "A" is active yet "B"'s playing flag is true. -/
theorem c8_claim_counterexample :
    ReachableUi (handlePlay (handleVideoClick initState "A" true true) "B") ∧
    ¬ onlyActivePlaying (handlePlay (handleVideoClick initState "A" true true) "B") := by
  constructor
  · exact ReachableUi.extPlay (handleVideoClick initState "A" true true) "B"
      (ReachableUi.click initState "A" true true ReachableUi.init)
  · intro hinv
    exact absurd (hinv "A" (by decide) "B" (by decide)) (by decide)

/-- C8 (amended): in every state reachable by clicks, external pause
events, external play events restricted to the active result id, and
successful search or page completions, if the active result id is set
then every other result id's playing flag is false. -/
theorem c8_only_active_playing_amended (s : CompState) (h : ReachableUiSafe s) :
    onlyActivePlaying s := by
  intro a ha id hid
  cases hv : jsGetB s.isPlaying id
  · rfl
  · have hact := reachableSafe_playingIsActive s h id hv
    rw [ha] at hact
    exact absurd (Option.some.inj hact).symm hid

/-- Concrete instance of the amended C8: after clicking "A" from the
initial state, "B" is not marked playing. -/
theorem c8_only_active_playing_amended_witness :
    jsGetB (handleVideoClick initState "A" true true).isPlaying "B" = false :=
  c8_only_active_playing_amended (handleVideoClick initState "A" true true)
    (ReachableUiSafe.click initState "A" true true ReachableUiSafe.init)
    "A" (by decide) "B" (by decide)

/-! ### Upload-list alignment (claim C10) -/

theorem convertAll_map_fst (files : List JsFile) (conv : JsFile → Option String)
    (l : List (JsFile × String)) (h : convertAll files conv = some l) :
    l.map (fun c => c.1) = files := by
  induction files generalizing l with
  | nil =>
      simp only [convertAll, Option.some.injEq] at h
      subst h
      rfl
  | cons f rest ih =>
      unfold convertAll at h
      cases hc : conv f with
      | none =>
          rw [hc] at h
          simp at h
      | some b =>
          cases hr : convertAll rest conv with
          | none =>
              rw [hc, hr] at h
              simp at h
          | some r =>
              rw [hc, hr] at h
              simp only [Option.some.injEq] at h
              subst h
              simp only [List.map_cons]
              rw [ih r hr]

theorem enumFrom_filter_map_map {α β : Type} (f : α → β) (i : Nat) :
    ∀ (l : List α) (n : Nat),
      ((List.enumFrom n (l.map f)).filter (fun p => p.1 ≠ i)).map (fun p => p.2) =
        (((List.enumFrom n l).filter (fun p => p.1 ≠ i)).map (fun p => p.2)).map f := by
  intro l
  induction l with
  | nil => intro n; rfl
  | cons a t ih =>
      intro n
      by_cases hn : n = i
      · simp [List.enumFrom, List.filter_cons, hn]
        rw [← List.map_map]
        simpa using ih (i + 1)
      · simp [List.enumFrom, List.filter_cons, hn]
        rw [← List.map_map]
        simpa using ih (n + 1)

theorem removeIdx_map {α β : Type} (f : α → β) (l : List α) (i : Nat) :
    removeIdx (l.map f) i = (removeIdx l i).map f := by
  unfold removeIdx
  exact enumFrom_filter_map_map f i l 0

theorem imagesAligned_fileSelect (s : CompState) (files : List JsFile)
    (conv : JsFile → Option String) (h : imagesAligned s) :
    imagesAligned (handleFileSelect s files conv) := by
  have h' : s.base64Contents.map (fun c => c.1) = s.selectedFiles := h
  simp only [handleFileSelect]
  by_cases h0 : files.length = 0
  · rw [if_pos h0]
    exact h
  · rw [if_neg h0]
    by_cases hv : (files.filter (fun f => validImageTypes.contains f.type)).length
        ≠ files.length
    · rw [if_pos hv]
      cases hc : convertAll (files.filter (fun f => validImageTypes.contains f.type)) conv with
      | none => exact h
      | some l =>
          show (s.base64Contents ++ l).map (fun c => c.1) =
            s.selectedFiles ++ files.filter (fun f => validImageTypes.contains f.type)
          rw [List.map_append, h', convertAll_map_fst _ conv l hc]
    · rw [if_neg hv]
      cases hc : convertAll (files.filter (fun f => validImageTypes.contains f.type)) conv with
      | none => exact h
      | some l =>
          show (s.base64Contents ++ l).map (fun c => c.1) =
            s.selectedFiles ++ files.filter (fun f => validImageTypes.contains f.type)
          rw [List.map_append, h', convertAll_map_fst _ conv l hc]

theorem imagesAligned_removeImage (s : CompState) (i : Nat) (h : imagesAligned s) :
    imagesAligned (removeImage s i) := by
  have h' : s.base64Contents.map (fun c => c.1) = s.selectedFiles := h
  show (removeIdx s.base64Contents i).map (fun c => c.1) = removeIdx s.selectedFiles i
  rw [← removeIdx_map, h']

/-- C10: under every sequence of file selections, single-image removals
and clear-alls, the selected-files list and the base64-contents list stay
pairwise aligned: equal length, and the file stored at index i of the
base64 list is the file at index i of the selected list. -/
theorem c10_upload_lists_aligned (ops : List FileOp) (s : CompState)
    (h : imagesAligned s) : imagesAligned (ops.foldl applyFileOp s) := by
  induction ops generalizing s with
  | nil => exact h
  | cons op rest ih =>
      rw [List.foldl_cons]
      apply ih
      cases op with
      | select files conv => exact imagesAligned_fileSelect s files conv h
      | remove idx => exact imagesAligned_removeImage s idx h
      | clearAll => rfl

/-- Concrete instance of C10: a mixed-validity selection followed by a
removal keeps the two lists aligned. -/
theorem c10_upload_lists_aligned_witness :
    imagesAligned initState ∧
    imagesAligned ([FileOp.select [pngFile, txtFile] (fun _ => some "QUJD"),
      FileOp.remove 0].foldl applyFileOp initState) :=
  ⟨rfl,
   c10_upload_lists_aligned
     [FileOp.select [pngFile, txtFile] (fun _ => some "QUJD"), FileOp.remove 0]
     initState rfl⟩
